import Mathlib

/-!
Verification of the goexpert-rate-limiter decision engine

Shallow embedding of the rate-limiter core from
`internal/ratelimiter` (limiter.go), the storage contract
(`internal/storage/storage.go`), the Redis-backed store
(`internal/storage/redis.go`) and the in-memory test double
(`internal/middleware/ratelimiter_test.go`).

Go `time.Duration` and timestamps become `Int` (nanoseconds); Go `int64`
counters become `Int`; Go `(value, error)` pairs become `value × Option String`;
the `Storage` interface becomes a record of explicit state-passing functions.
The engine additionally returns the list of store operations it performed,
so that frame conditions ("Increment was not called") are expressible.
-/

namespace RateLimiterProof

/-- Model of `ratelimiter.Config`: `Requests int64; Window time.Duration; BlockTime time.Duration`. -/
structure Config where
  Requests : Int
  Window : Int
  BlockTime : Int
  deriving DecidableEq, Repr

/-- The `storage.Storage` interface: each method takes and returns the store
state `σ` explicitly; the Go `error` result is `Option String`. -/
structure StorageModel (σ : Type) where
  Increment : σ → String → Int → (Int × Option String) × σ
  IsBlocked : σ → String → (Bool × Option String) × σ
  Block : σ → String → Int → Option String × σ

/-- One store call performed by the engine, with the arguments it passed and
the response it observed. -/
inductive StoreOp where
  | isBlockedOp (key : String) (result : Bool) (err : Option String)
  | incrementOp (key : String) (window : Int) (result : Int) (err : Option String)
  | blockOp (key : String) (duration : Int) (err : Option String)
  deriving DecidableEq, Repr

/-- The error component of the response to a store call. -/
def StoreOp.errOf : StoreOp → Option String
  | .isBlockedOp _ _ e => e
  | .incrementOp _ _ _ e => e
  | .blockOp _ _ e => e

/-- Is this an `IsBlocked` call? -/
def StoreOp.isBlockedKind : StoreOp → Bool
  | .isBlockedOp _ _ _ => true
  | _ => false

/-- Is this an `Increment` call? -/
def StoreOp.isIncrementKind : StoreOp → Bool
  | .incrementOp _ _ _ _ => true
  | _ => false

/-- Is this a `Block` call? -/
def StoreOp.isBlockKind : StoreOp → Bool
  | .blockOp _ _ _ => true
  | _ => false

/-- Model of `ratelimiter.RateLimiter`: the default (IP) scope configuration and the
token-scope map. The Go `map[string]Config` is modelled as an association
list; `AddTokenConfig` prepends, and lookup takes the most recent binding,
matching map insert/lookup semantics. The storage handle is passed separately
to each checking function. -/
structure RateLimiter where
  ipConfig : Config
  tokens : List (String × Config)

/-- Model of `ratelimiter.NewRateLimiter`: stores the given IP config and an empty
token map, with no validation. -/
def NewRateLimiter (ipConfig : Config) : RateLimiter :=
  { ipConfig := ipConfig, tokens := [] }

/-- Model of `ratelimiter.AddTokenConfig`: `rl.tokens[token] = config`, with no
validation. -/
def AddTokenConfig (rl : RateLimiter) (token : String) (config : Config) : RateLimiter :=
  { rl with tokens := (token, config) :: rl.tokens }

/-- Model of `RateLimiter.checkLimit`: IsBlocked, then Increment, then compare with
`config.Requests`, then Block on excess. Result is the Go pair
`(allowed, error)`, the final store state, and the trace of store calls. -/
def checkLimit (st : StorageModel σ) (s : σ) (key : String) (config : Config) :
    (Bool × Option String) × σ × List StoreOp :=
  let r1 := st.IsBlocked s key
  let blocked := r1.1.1
  let s1 := r1.2
  let op1 := StoreOp.isBlockedOp key blocked r1.1.2
  match r1.1.2 with
  | some e => ((false, some ("falha ao verificar se está bloqueado: " ++ e)), s1, [op1])
  | none =>
    if blocked then
      ((false, none), s1, [op1])
    else
      let r2 := st.Increment s1 key config.Window
      let count := r2.1.1
      let s2 := r2.2
      let op2 := StoreOp.incrementOp key config.Window count r2.1.2
      match r2.1.2 with
      | some e => ((false, some ("falha ao incrementar contador: " ++ e)), s2, [op1, op2])
      | none =>
        if count > config.Requests then
          let r3 := st.Block s2 key config.BlockTime
          let op3 := StoreOp.blockOp key config.BlockTime r3.1
          match r3.1 with
          | some e => ((false, some ("falha ao bloquear chave: " ++ e)), r3.2, [op1, op2, op3])
          | none => ((false, none), r3.2, [op1, op2, op3])
        else
          ((true, none), s2, [op1, op2])

/-- Model of `RateLimiter.CheckIP`: checks under the key `"ip:" + ip` with the default
scope configuration. -/
def CheckIP (st : StorageModel σ) (s : σ) (rl : RateLimiter) (ip : String) :
    (Bool × Option String) × σ × List StoreOp :=
  checkLimit st s ("ip:" ++ ip) rl.ipConfig

/-- Model of `RateLimiter.CheckToken`: if no configuration is registered for the token,
returns `(true, nil)` without touching the store; otherwise checks under the
key `"token:" + token` with the configuration of the token. -/
def CheckToken (st : StorageModel σ) (s : σ) (rl : RateLimiter) (token : String) :
    (Bool × Option String) × σ × List StoreOp :=
  match rl.tokens.lookup token with
  | none => ((true, none), s, [])
  | some config => checkLimit st s ("token:" ++ token) config

/-- Pointwise update of a string-keyed map, modelling a Go map write. -/
def updateMap (m : String → Option α) (k : String) (v : α) : String → Option α :=
  fun k2 => if k2 = k then some v else m k2

/-! ## The in-memory store (`InMemoryStorage` from `ratelimiter_test.go`)

Each Go method reads `time.Now()`; the model keeps the current instant in the
state as `now` and leaves it fixed across calls, modelling a rapid sequence of
calls within one window. -/

/-- Model of `countData`: the per-key counter record `{count, expireAt}`. -/
structure CountData where
  count : Int
  expireAt : Int
  deriving DecidableEq, Repr

/-- State of `InMemoryStorage` plus the current instant. -/
structure MemState where
  now : Int
  counters : String → Option CountData
  blocked : String → Option Int

/-- Model of `InMemoryStorage.Increment`: bump the counter if the window has not
expired, otherwise reset it to 1 expiring `window` from now. -/
def memIncrement (s : MemState) (key : String) (window : Int) :
    (Int × Option String) × MemState :=
  match s.counters key with
  | some data =>
    if s.now < data.expireAt then
      ((data.count + 1, none),
        { s with counters := updateMap s.counters key ⟨data.count + 1, data.expireAt⟩ })
    else
      ((1, none), { s with counters := updateMap s.counters key ⟨1, s.now + window⟩ })
  | none =>
      ((1, none), { s with counters := updateMap s.counters key ⟨1, s.now + window⟩ })

/-- Model of `InMemoryStorage.IsBlocked`: true iff a block entry exists and has not
expired; never mutates. -/
def memIsBlocked (s : MemState) (key : String) : (Bool × Option String) × MemState :=
  match s.blocked key with
  | some blockedUntil => ((decide (s.now < blockedUntil), none), s)
  | none => ((false, none), s)

/-- Model of `InMemoryStorage.Block`: record a block expiring `duration` from now. -/
def memBlock (s : MemState) (key : String) (duration : Int) : Option String × MemState :=
  (none, { s with blocked := updateMap s.blocked key (s.now + duration) })

/-- The in-memory store bundled as a `StorageModel`. -/
def memStorage : StorageModel MemState :=
  { Increment := memIncrement, IsBlocked := memIsBlocked, Block := memBlock }

/-- The empty in-memory store at instant 0. -/
def memInit : MemState :=
  { now := 0, counters := fun _ => none, blocked := fun _ => none }

/-- Run `checkLimit` a number of times sequentially on the same key and
configuration, collecting the `allowed` results. -/
def runCalls (st : StorageModel σ) (s : σ) (key : String) (config : Config) :
    Nat → List Bool × σ
  | 0 => ([], s)
  | n + 1 =>
      let r := checkLimit st s key config
      let rest := runCalls st r.2.1 key config n
      (r.1.1 :: rest.1, rest.2)

/-- Run `CheckToken` a number of times sequentially with the same token,
collecting the `allowed` results. -/
def runTokenCalls (st : StorageModel σ) (s : σ) (rl : RateLimiter) (token : String) :
    Nat → List Bool × σ
  | 0 => ([], s)
  | n + 1 =>
      let r := CheckToken st s rl token
      let rest := runTokenCalls st r.2.1 rl token n
      (r.1.1 :: rest.1, rest.2)

/-! ## The Redis store (`RedisStorage` from `internal/storage/redis.go`)

Only `Increment` is modelled (the subject of the window-expiry claim). A
Redis key holds an integer value and an optional absolute expiry timestamp;
a key whose expiry has passed behaves as absent. -/

/-- State of the Redis database plus the current instant. -/
structure RedisState where
  now : Int
  data : String → Option (Int × Option Int)

/-- The live (non-expired) entry for a key, as Redis commands observe it. -/
def redisLive (s : RedisState) (key : String) : Option (Int × Option Int) :=
  match s.data key with
  | some (v, some e) => if s.now < e then some (v, some e) else none
  | some (v, none) => some (v, none)
  | none => none

/-- Model of `RedisStorage.Increment`: the pipeline runs `INCR key` and then,
unconditionally, `EXPIRE key window`. `INCR` bumps the live value (creating
the key at 1 with no expiry if absent); `EXPIRE` then sets the expiry of the key
to `window` from now on every call. Returns `incrCmd.Val()`. -/
def RedisStorage.Increment (s : RedisState) (key : String) (window : Int) :
    (Int × Option String) × RedisState :=
  let v :=
    match redisLive s key with
    | some (v0, _) => v0 + 1
    | none => 1
  ((v, none), { s with data := updateMap s.data key (v, some (s.now + window)) })

/-! ## Concrete fixtures used by witnesses and counterexamples -/

/-- A store whose every operation fails, for exercising error paths. -/
def errStorage : StorageModel Unit :=
  { Increment := fun s _ _ => ((0, some "indisponivel"), s)
    IsBlocked := fun s _ => ((false, some "indisponivel"), s)
    Block := fun s _ _ => (some "indisponivel", s) }

/-- The scenario configuration `requestLimit=3, window=1s, blockDuration=60s`
(durations in nanoseconds). -/
def c1cfg : Config := ⟨3, 1000000000, 60000000000⟩

/-- Address limit 1/window next to a registered token limit 3/window. -/
def c7limiter : RateLimiter :=
  AddTokenConfig (NewRateLimiter ⟨1, 1000000000, 60000000000⟩) "abc123"
    ⟨3, 1000000000, 60000000000⟩

/-- A configuration violating the registration invariant (`Requests ≥ 1`,
`Window > 0`). -/
def badConfig : Config := ⟨0, 0, 0⟩

/-- A limiter with one registered token, used against `errStorage`. -/
def errLimiter : RateLimiter :=
  AddTokenConfig (NewRateLimiter ⟨5, 1000000000, 60000000000⟩) "t"
    ⟨5, 1000000000, 60000000000⟩

/-- An in-memory store state where `"k"` is blocked until instant 7. -/
def memBlockedState : MemState :=
  { now := 0, counters := fun _ => none,
    blocked := fun k => if k = "k" then some 7 else none }

/-- An in-memory store state where `"k"` has count 1 in a window expiring at
instant 10. -/
def memCounted : MemState :=
  { now := 0, counters := fun k => if k = "k" then some ⟨1, 10⟩ else none,
    blocked := fun _ => none }

/-- A Redis state at instant 5 where `"k"` holds count 1 expiring at
instant 10 (a window started at instant 0 with duration 10). -/
def redisMidWindow : RedisState :=
  { now := 5, data := fun k => if k = "k" then some (1, some 10) else none }

/-- The in-memory analogue of `redisMidWindow`. -/
def memMidWindow : MemState :=
  { now := 5, counters := fun k => if k = "k" then some ⟨1, 10⟩ else none,
    blocked := fun _ => none }

/-! ## Theorems -/

/-- C2. If the store reports the key blocked (with no error), `checkLimit`
returns `(false, nil)`, leaves the store exactly as `IsBlocked` left it, and
its trace holds the single `IsBlocked` call: `Increment` and `Block` are not
called, so the counter record is untouched and the block expiry is not
extended. -/
theorem c2_blocked_short_circuit {σ : Type} (st : StorageModel σ) (s : σ)
    (key : String) (config : Config)
    (h : (st.IsBlocked s key).1 = (true, none)) :
    checkLimit st s key config =
      ((false, none), (st.IsBlocked s key).2, [StoreOp.isBlockedOp key true none]) := by
  have h1 : (st.IsBlocked s key).1.1 = true := by rw [h]
  have h2 : (st.IsBlocked s key).1.2 = none := by rw [h]
  simp [checkLimit, h1, h2]

/-- C2 witness. Checking the blocked key `"k"` of `memBlockedState` denies
without error, without touching the store state, and with only the
`IsBlocked` call in the trace. -/
theorem c2_blocked_short_circuit_witness :
    (memStorage.IsBlocked memBlockedState "k").1 = (true, none) ∧
    checkLimit memStorage memBlockedState "k" c1cfg =
      ((false, none), memBlockedState, [StoreOp.isBlockedOp "k" true none]) :=
  ⟨by decide, c2_blocked_short_circuit memStorage memBlockedState "k" c1cfg (by decide)⟩

/-- C4. `CheckToken` on a token with no registered configuration returns
`(true, nil)`, leaves the store untouched, and performs no store operation at
all. -/
theorem c4_unknown_token_allowed {σ : Type} (st : StorageModel σ) (s : σ)
    (rl : RateLimiter) (token : String)
    (h : rl.tokens.lookup token = none) :
    CheckToken st s rl token = ((true, none), s, []) := by
  unfold CheckToken
  rw [h]

/-- C4 witness. A limiter with no registered tokens reports
`"invalid_token"` allowed with no error and an empty store-operation trace. -/
theorem c4_unknown_token_allowed_witness :
    (NewRateLimiter c1cfg).tokens.lookup "invalid_token" = none ∧
    CheckToken memStorage memInit (NewRateLimiter c1cfg) "invalid_token" =
      ((true, none), memInit, []) :=
  ⟨rfl, c4_unknown_token_allowed memStorage memInit (NewRateLimiter c1cfg)
    "invalid_token" rfl⟩

/-- C5. (Supporting evaluation for a code bug.) At instant 5, with `"k"`
holding count 1 inside an unexpired window ending at instant 10, a second
`RedisStorage.Increment` with window 10 returns count 2 but moves the
expiry of the key to instant 15: the `EXPIRE` in the pipeline runs on every call, not
only on the first write of the window. The in-memory test double at the same
input returns count 2 and keeps the expiry at instant 10, which is the
behaviour the claim (and the comment in the code itself) describes. -/
theorem c5_redis_increment_moves_expiry :
    (RedisStorage.Increment redisMidWindow "k" 10).1 = (2, none) ∧
    ((RedisStorage.Increment redisMidWindow "k" 10).2).data "k" = some (2, some 15) ∧
    (memIncrement memMidWindow "k" 10).1 = (2, none) ∧
    ((memIncrement memMidWindow "k" 10).2).counters "k" = some ⟨2, 10⟩ := by
  refine ⟨by decide, by decide, by decide, by decide⟩

/-- C6 counterexample. Registration performs no validation: a
configuration with `Requests = 0` and `Window = 0` (violating
`requestLimit ≥ 1`, `windowDuration > 0`) is accepted and stored verbatim,
both as a named token scope and as the default scope — it is not rejected at
registration time. -/
theorem c6_invalid_config_accepted :
    (AddTokenConfig (NewRateLimiter c1cfg) "t" badConfig).tokens.lookup "t"
      = some badConfig ∧
    (NewRateLimiter badConfig).ipConfig = badConfig ∧
    badConfig.Requests ≤ 0 ∧ badConfig.Window ≤ 0 := by
  refine ⟨by decide, rfl, by decide, by decide⟩

/-- C6 (amended). `NewRateLimiter` and `AddTokenConfig` accept any
configuration unconditionally: the registered scope stores exactly the given
configuration, valid or not (the Go functions have no error return), so a
non-positive limit or window is not rejected until it misbehaves at check
time. -/
theorem c6_registration_never_validates (rl : RateLimiter) (token : String)
    (config ipc : Config) :
    (AddTokenConfig rl token config).tokens.lookup token = some config ∧
    (NewRateLimiter ipc).ipConfig = ipc ∧
    (NewRateLimiter ipc).tokens = [] := by
  refine ⟨?_, rfl, rfl⟩
  simp [AddTokenConfig, List.lookup]

/-- C10. The empty string is an ordinary token: registering a
configuration under `""` stores it and makes `CheckToken ""` rate-limit
under the key `"token:"` with that configuration, while with no
configuration registered for `""`, `CheckToken ""` returns `(true, nil)`
with no store access. -/
theorem c10_empty_token_not_special {σ : Type} (st : StorageModel σ) (s : σ)
    (rl : RateLimiter) (config : Config) :
    (AddTokenConfig rl "" config).tokens.lookup "" = some config ∧
    CheckToken st s (AddTokenConfig rl "" config) "" = checkLimit st s "token:" config ∧
    (rl.tokens.lookup "" = none → CheckToken st s rl "" = ((true, none), s, [])) := by
  refine ⟨?_, ?_, fun h => by unfold CheckToken; rw [h]⟩
  · simp [AddTokenConfig, List.lookup]
  · unfold CheckToken
    simp [AddTokenConfig, List.lookup]

/-- C10 witness. With a fresh limiter, `CheckToken ""` is allowed with no
store access; after registering `c1cfg` under `""`, the lookup succeeds and
`CheckToken ""` checks the key `"token:"` with `c1cfg`. -/
theorem c10_empty_token_not_special_witness :
    (NewRateLimiter c1cfg).tokens.lookup "" = none ∧
    CheckToken memStorage memInit (NewRateLimiter c1cfg) "" = ((true, none), memInit, []) ∧
    (AddTokenConfig (NewRateLimiter c1cfg) "" c1cfg).tokens.lookup "" = some c1cfg ∧
    CheckToken memStorage memInit (AddTokenConfig (NewRateLimiter c1cfg) "" c1cfg) ""
      = checkLimit memStorage memInit "token:" c1cfg :=
  ⟨rfl,
   (c10_empty_token_not_special memStorage memInit (NewRateLimiter c1cfg) c1cfg).2.2 rfl,
   (c10_empty_token_not_special memStorage memInit (NewRateLimiter c1cfg) c1cfg).1,
   (c10_empty_token_not_special memStorage memInit (NewRateLimiter c1cfg) c1cfg).2.1⟩

/-- Helper: every result of `checkLimit` carrying an error has `allowed = false`. -/
lemma checkLimit_err_imp_denied {σ : Type} (st : StorageModel σ) (s : σ)
    (key : String) (config : Config) :
    ((checkLimit st s key config).1.2).isSome → (checkLimit st s key config).1.1 = false := by
  simp only [checkLimit]
  split
  · simp_all
  · split
    · simp_all
    · split
      · simp_all
      · split
        · split
          · simp_all
          · simp_all
        · simp_all

/-- C9. Whenever `checkLimit`, `CheckIP` or `CheckToken` returns a
non-nil error, the accompanying boolean is `false`: no error path pairs an
error with `allowed = true`, so a caller ignoring the error fails closed. -/
theorem c9_error_implies_denied {σ : Type} (st : StorageModel σ) (s : σ)
    (rl : RateLimiter) (key ip token : String) (config : Config) :
    (((checkLimit st s key config).1.2).isSome → (checkLimit st s key config).1.1 = false) ∧
    (((CheckIP st s rl ip).1.2).isSome → (CheckIP st s rl ip).1.1 = false) ∧
    (((CheckToken st s rl token).1.2).isSome → (CheckToken st s rl token).1.1 = false) := by
  refine ⟨checkLimit_err_imp_denied st s key config,
          checkLimit_err_imp_denied st s ("ip:" ++ ip) rl.ipConfig, ?_⟩
  unfold CheckToken
  cases h : rl.tokens.lookup token with
  | none => simp
  | some cfg => exact checkLimit_err_imp_denied st s ("token:" ++ token) cfg

/-- C9 witness. Against a store whose every operation fails, `checkLimit`,
`CheckIP` and `CheckToken` (on the registered token `"t"`) all report an
error, and each reports `allowed = false` alongside it. -/
theorem c9_error_implies_denied_witness :
    ((checkLimit errStorage () "k" c1cfg).1.2).isSome = true ∧
    (checkLimit errStorage () "k" c1cfg).1.1 = false ∧
    ((CheckIP errStorage () errLimiter "1.2.3.4").1.2).isSome = true ∧
    (CheckIP errStorage () errLimiter "1.2.3.4").1.1 = false ∧
    ((CheckToken errStorage () errLimiter "t").1.2).isSome = true ∧
    (CheckToken errStorage () errLimiter "t").1.1 = false :=
  ⟨by decide,
   (c9_error_implies_denied errStorage () errLimiter "k" "1.2.3.4" "t" c1cfg).1 (by decide),
   by decide,
   (c9_error_implies_denied errStorage () errLimiter "k" "1.2.3.4" "t" c1cfg).2.1 (by decide),
   by decide,
   (c9_error_implies_denied errStorage () errLimiter "k" "1.2.3.4" "t" c1cfg).2.2 (by decide)⟩

/-- C8. For every store and state, one `checkLimit` call reports a
non-nil error exactly when one of the store operations it performed responded
with an error, and its trace contains each kind of store operation at most
once — no internal retry, and no store failure is masked as a plain
allowed/denied answer. -/
theorem c8_error_iff_store_failure {σ : Type} (st : StorageModel σ) (s : σ)
    (key : String) (config : Config) :
    (((checkLimit st s key config).1.2).isSome
        ↔ ∃ op ∈ (checkLimit st s key config).2.2, op.errOf ≠ none) ∧
    ((checkLimit st s key config).2.2.countP StoreOp.isBlockedKind ≤ 1) ∧
    ((checkLimit st s key config).2.2.countP StoreOp.isIncrementKind ≤ 1) ∧
    ((checkLimit st s key config).2.2.countP StoreOp.isBlockKind ≤ 1) := by
  simp only [checkLimit]
  split
  · simp_all [StoreOp.errOf, List.countP_cons, List.countP_nil,
      StoreOp.isBlockedKind, StoreOp.isIncrementKind, StoreOp.isBlockKind]
  · split
    · simp_all [StoreOp.errOf, List.countP_cons, List.countP_nil,
        StoreOp.isBlockedKind, StoreOp.isIncrementKind, StoreOp.isBlockKind]
    · split
      · simp_all [StoreOp.errOf, List.countP_cons, List.countP_nil,
          StoreOp.isBlockedKind, StoreOp.isIncrementKind, StoreOp.isBlockKind]
      · split
        · split
          · simp_all [StoreOp.errOf, List.countP_cons, List.countP_nil,
              StoreOp.isBlockedKind, StoreOp.isIncrementKind, StoreOp.isBlockKind]
          · simp_all [StoreOp.errOf, List.countP_cons, List.countP_nil,
              StoreOp.isBlockedKind, StoreOp.isIncrementKind, StoreOp.isBlockKind]
        · simp_all [StoreOp.errOf, List.countP_cons, List.countP_nil,
            StoreOp.isBlockedKind, StoreOp.isIncrementKind, StoreOp.isBlockKind]

/-- C3. When the key is not blocked and the post-increment count is `n`
(both store calls succeeding), `checkLimit` allows exactly when
`n ≤ config.Requests` (a count equal to the limit is still allowed), and it
calls `Block key config.BlockTime` exactly when `n > config.Requests`, in
which case it reports denied. -/
theorem c3_strict_greater_threshold {σ : Type} (st : StorageModel σ) (s : σ)
    (key : String) (config : Config) (n : Int)
    (h1 : (st.IsBlocked s key).1 = (false, none))
    (h2 : (st.Increment (st.IsBlocked s key).2 key config.Window).1 = (n, none)) :
    ((checkLimit st s key config).1.1 = true ↔ n ≤ config.Requests) ∧
    ((∃ e3, StoreOp.blockOp key config.BlockTime e3 ∈ (checkLimit st s key config).2.2)
        ↔ config.Requests < n) ∧
    (config.Requests < n → (checkLimit st s key config).1.1 = false) := by
  have hb : (st.IsBlocked s key).1.1 = false := by rw [h1]
  have he1 : (st.IsBlocked s key).1.2 = none := by rw [h1]
  have hc : (st.Increment (st.IsBlocked s key).2 key config.Window).1.1 = n := by rw [h2]
  have he2 : (st.Increment (st.IsBlocked s key).2 key config.Window).1.2 = none := by
    rw [h2]
  by_cases hn : config.Requests < n
  · cases h3 : (st.Block (st.Increment (st.IsBlocked s key).2 key config.Window).2 key
        config.BlockTime).1 with
    | none => simp [checkLimit, he1, hb, hc, he2, hn, h3]
    | some e => simp [checkLimit, he1, hb, hc, he2, hn, h3]
  · simp [checkLimit, he1, hb, hc, he2, hn]
    omega

/-- C3 witness. With `"k"` at count 1 in an open window and a limit of 1,
the next call sees count 2: it is denied (2 ≰ 1), and a `Block` call with the
configured block duration appears in the trace (1 < 2). -/
theorem c3_strict_greater_threshold_witness :
    (memStorage.IsBlocked memCounted "k").1 = (false, none) ∧
    (memStorage.Increment (memStorage.IsBlocked memCounted "k").2 "k"
        (Config.mk 1 10 100).Window).1 = (2, none) ∧
    (((checkLimit memStorage memCounted "k" ⟨1, 10, 100⟩).1.1 = true ↔ (2 : Int) ≤ 1) ∧
     ((∃ e3, StoreOp.blockOp "k" (100 : Int) e3
          ∈ (checkLimit memStorage memCounted "k" ⟨1, 10, 100⟩).2.2) ↔ (1 : Int) < 2) ∧
     ((1 : Int) < 2 → (checkLimit memStorage memCounted "k" ⟨1, 10, 100⟩).1.1 = false)) :=
  ⟨by decide, by decide,
   c3_strict_greater_threshold memStorage memCounted "k" ⟨1, 10, 100⟩ 2
     (by decide) (by decide)⟩

/-- C7. For a registered token, `CheckToken` is exactly `checkLimit` on
the key `"token:" + token` with the own configuration of the token; the result is
unchanged under any replacement of the default (IP) configuration; and in
the concrete scenario (address limit 1/window, token `"abc123"` registered
at 3/window), three consecutive `CheckToken` calls are all allowed. -/
theorem c7_token_scope_independent {σ : Type} (st : StorageModel σ) (s : σ)
    (rl : RateLimiter) (token : String) (config ipc : Config)
    (h : rl.tokens.lookup token = some config) :
    CheckToken st s rl token = checkLimit st s ("token:" ++ token) config ∧
    CheckToken st s { rl with ipConfig := ipc } token = CheckToken st s rl token ∧
    (runTokenCalls memStorage memInit c7limiter "abc123" 3).1 = [true, true, true] := by
  refine ⟨?_, rfl, by decide⟩
  unfold CheckToken
  rw [h]

/-- C7 witness. In the concrete scenario, the lookup of `"abc123"` yields
its registered 3/window configuration, `CheckToken` equals `checkLimit` on
`"token:abc123"` with it, swapping in a different default configuration
changes nothing, and three consecutive calls are all allowed. -/
theorem c7_token_scope_independent_witness :
    c7limiter.tokens.lookup "abc123" = some ⟨3, 1000000000, 60000000000⟩ ∧
    (CheckToken memStorage memInit c7limiter "abc123"
        = checkLimit memStorage memInit ("token:" ++ "abc123") ⟨3, 1000000000, 60000000000⟩ ∧
     CheckToken memStorage memInit { c7limiter with ipConfig := c1cfg } "abc123"
        = CheckToken memStorage memInit c7limiter "abc123" ∧
     (runTokenCalls memStorage memInit c7limiter "abc123" 3).1 = [true, true, true]) :=
  ⟨by decide,
   c7_token_scope_independent memStorage memInit c7limiter "abc123"
     ⟨3, 1000000000, 60000000000⟩ c1cfg (by decide)⟩

/-- Helper: one `checkLimit` call on the in-memory store from an unblocked
state whose counter (existing at `c` in the open window, or absent with
`c = 0`) stays within the limit: it is allowed and bumps the counter to
`c + 1` with the window expiry unchanged. -/
lemma checkLimit_mem_allowed (s : MemState) (key : String) (config : Config) (c : Int)
    (hb : s.blocked key = none)
    (hcnt : s.counters key = some ⟨c, s.now + config.Window⟩
      ∨ (c = 0 ∧ s.counters key = none))
    (hW : 0 < config.Window)
    (hle : c + 1 ≤ config.Requests) :
    checkLimit memStorage s key config =
      ((true, none),
       { s with counters := updateMap s.counters key ⟨c + 1, s.now + config.Window⟩ },
       [StoreOp.isBlockedOp key false none,
        StoreOp.incrementOp key config.Window (c + 1) none]) := by
  have hib : memStorage.IsBlocked s key = ((false, none), s) := by
    simp [memStorage, memIsBlocked, hb]
  have hinc : memStorage.Increment s key config.Window =
      ((c + 1, none),
       { s with counters := updateMap s.counters key ⟨c + 1, s.now + config.Window⟩ }) := by
    rcases hcnt with h | ⟨hc0, h⟩
    · simp only [memStorage, memIncrement, h]
      split
      · rfl
      · exact absurd (by omega : s.now < s.now + config.Window) (by assumption)
    · subst hc0
      simp only [memStorage, memIncrement, h]
      norm_num
  have hgt : ¬ (c + 1 > config.Requests) := by omega
  simp [checkLimit, hib, hinc, hgt]

/-- Helper: one `checkLimit` call on the in-memory store from an unblocked
state whose post-increment count exceeds the limit: it is denied without
error and records a block expiring `BlockTime` from now. -/
lemma checkLimit_mem_denied (s : MemState) (key : String) (config : Config) (c : Int)
    (hb : s.blocked key = none)
    (hcnt : s.counters key = some ⟨c, s.now + config.Window⟩
      ∨ (c = 0 ∧ s.counters key = none))
    (hW : 0 < config.Window)
    (hgt : c + 1 > config.Requests) :
    checkLimit memStorage s key config =
      ((false, none),
       { now := s.now,
         counters := updateMap s.counters key ⟨c + 1, s.now + config.Window⟩,
         blocked := updateMap s.blocked key (s.now + config.BlockTime) },
       [StoreOp.isBlockedOp key false none,
        StoreOp.incrementOp key config.Window (c + 1) none,
        StoreOp.blockOp key config.BlockTime none]) := by
  have hib : memStorage.IsBlocked s key = ((false, none), s) := by
    simp [memStorage, memIsBlocked, hb]
  have hinc : memStorage.Increment s key config.Window =
      ((c + 1, none),
       { s with counters := updateMap s.counters key ⟨c + 1, s.now + config.Window⟩ }) := by
    rcases hcnt with h | ⟨hc0, h⟩
    · simp only [memStorage, memIncrement, h]
      split
      · rfl
      · exact absurd (by omega : s.now < s.now + config.Window) (by assumption)
    · subst hc0
      simp only [memStorage, memIncrement, h]
      norm_num
  simp [checkLimit, hib, hinc, hgt, memBlock]
  rfl

/-- Helper: a run of `a + b` calls is the run of `a` calls followed by a run
of `b` calls from the intermediate state. -/
lemma runCalls_append {σ : Type} (st : StorageModel σ) (key : String) (config : Config) :
    ∀ (a b : Nat) (s : σ),
      runCalls st s key config (a + b)
        = ((runCalls st s key config a).1
            ++ (runCalls st (runCalls st s key config a).2 key config b).1,
           (runCalls st (runCalls st s key config a).2 key config b).2) := by
  intro a
  induction a with
  | zero => intro b s; simp [runCalls]
  | succ n ih =>
    intro b s
    have hrw : n + 1 + b = (n + b) + 1 := by omega
    rw [hrw]
    simp only [runCalls]
    rw [ih]
    rfl

/-- Helper: from an unblocked state whose counter sits at `c` inside the open
window (or is absent with `c = 0`), a run of `m` calls staying within the
limit is allowed throughout, keeps the instant and the absence of a block,
and leaves the counter at `c + m` with the expiry unchanged. -/
lemma runCalls_mem_phase (key : String) (config : Config) :
    ∀ (m : Nat) (c : Int) (s : MemState),
      0 < config.Window →
      s.blocked key = none →
      (s.counters key = some ⟨c, s.now + config.Window⟩
        ∨ (c = 0 ∧ s.counters key = none)) →
      c + (m : Int) ≤ config.Requests →
      (runCalls memStorage s key config m).1 = List.replicate m true ∧
      (runCalls memStorage s key config m).2.now = s.now ∧
      (runCalls memStorage s key config m).2.blocked key = none ∧
      ((runCalls memStorage s key config m).2.counters key
          = some ⟨c + (m : Int), s.now + config.Window⟩
        ∨ (c + (m : Int) = 0 ∧ (runCalls memStorage s key config m).2.counters key = none)) := by
  intro m
  induction m with
  | zero =>
    intro c s hW hb hcnt hbound
    exact ⟨rfl, rfl, hb, by simpa [runCalls] using hcnt⟩
  | succ m ih =>
    intro c s hW hb hcnt hbound
    have hle : c + 1 ≤ config.Requests := by
      push_cast at hbound; omega
    have hbound2 : (c + 1) + (m : Int) ≤ config.Requests := by
      push_cast at hbound; omega
    have hstep := checkLimit_mem_allowed s key config c hb hcnt hW hle
    have hcnt2 : (updateMap s.counters key ⟨c + 1, s.now + config.Window⟩) key
        = some ⟨c + 1, s.now + config.Window⟩ := by
      simp [updateMap]
    have hrun := ih (c + 1)
      { s with counters := updateMap s.counters key ⟨c + 1, s.now + config.Window⟩ }
      hW hb (Or.inl hcnt2) hbound2
    obtain ⟨hres, hnow, hblk, hc3⟩ := hrun
    have harith : c + ((m + 1 : Nat) : Int) = (c + 1) + (m : Int) := by push_cast; ring
    simp only [runCalls, hstep]
    refine ⟨?_, ?_, hblk, ?_⟩
    · simp [hres, List.replicate_succ]
    · simpa using hnow
    · rcases hc3 with h | ⟨h0, h⟩
      · left
        rw [harith]
        simpa using h
      · right
        refine ⟨?_, h⟩
        omega

/-- C1. From a state with no counter and no block for `key`, with
`Requests = N` and a positive window, a sequence of `N + 1` rapid
`checkLimit` calls yields `allowed` for calls `1..N` and `denied` for call
`N + 1`, and the denying call records a block for the key expiring
`BlockTime` from now. -/
theorem c1_window_limit_sequence (s0 : MemState) (key : String) (config : Config) (N : Nat)
    (hN : config.Requests = (N : Int)) (hW : 0 < config.Window)
    (hc : s0.counters key = none) (hb : s0.blocked key = none) :
    (runCalls memStorage s0 key config (N + 1)).1 = List.replicate N true ++ [false] ∧
    ((runCalls memStorage s0 key config (N + 1)).2).blocked key
      = some (s0.now + config.BlockTime) := by
  have hphase := runCalls_mem_phase key config N 0 s0 hW hb (Or.inr ⟨rfl, hc⟩)
    (by rw [hN]; omega)
  obtain ⟨hres, hnow, hblk, hcnt⟩ := hphase
  have happ := runCalls_append memStorage key config N 1 s0
  have hcnt' : (runCalls memStorage s0 key config N).2.counters key
      = some ⟨(N : Int), (runCalls memStorage s0 key config N).2.now + config.Window⟩
      ∨ ((N : Int) = 0 ∧ (runCalls memStorage s0 key config N).2.counters key = none) := by
    rcases hcnt with h | ⟨h0, h⟩
    · left
      rw [hnow]
      simpa using h
    · right
      exact ⟨by omega, h⟩
  have hgt : (N : Int) + 1 > config.Requests := by rw [hN]; omega
  have hd := checkLimit_mem_denied (runCalls memStorage s0 key config N).2 key config
    (N : Int) hblk hcnt' hW hgt
  have h1res :
      (runCalls memStorage (runCalls memStorage s0 key config N).2 key config 1).1
        = [false] := by
    simp only [runCalls, hd]
  have h1blk :
      ((runCalls memStorage (runCalls memStorage s0 key config N).2 key config 1).2).blocked
          key
        = some ((runCalls memStorage s0 key config N).2.now + config.BlockTime) := by
    simp only [runCalls, hd]
    simp [updateMap]
  rw [happ]
  refine ⟨?_, ?_⟩
  · rw [hres, h1res]
  · rw [h1blk, hnow]

/-- C1 witness. With `requestLimit = 3`, `window = 1s`,
`blockDuration = 60s` and a fresh key, four rapid calls yield
`[allowed, allowed, allowed, denied]` and leave a block expiring 60s from
now on the key. -/
theorem c1_window_limit_sequence_witness :
    (runCalls memStorage memInit "k" c1cfg (3 + 1)).1
      = List.replicate 3 true ++ [false] ∧
    ((runCalls memStorage memInit "k" c1cfg (3 + 1)).2).blocked "k"
      = some (memInit.now + c1cfg.BlockTime) :=
  c1_window_limit_sequence memInit "k" c1cfg 3 (by decide) (by decide) rfl rfl

end RateLimiterProof
